import Mathlib

/-!
Verification of the `sigprof` package (signal-triggered profiling dispatcher).

The Go source (`sigprof.go`) is embedded shallowly as trace-producing
functions.  External nondeterminism — whether `pprof.Lookup` finds a
profile, whether `prof.WriteTo` / `pprof.StartCPUProfile` / `(*os.File).Close`
/ `os.Remove` / `ioutil.TempFile` fail — is collected in an `Env` record.
Each embedded function returns the sequence of observable effects (an
`Event` list) it performs, and the list of deferred stop actions it
schedules (the goroutine spawned by `cpuProfile` on a successful start).
-/

namespace Sigprof

/-- Sinks produced by the writer factory: the `stderrWriter{}` wrapper, the
`stdoutWriter{}` wrapper, or an `*os.File` with its path name.  The Go
dispatcher distinguishes these with the type assertion `w.(*os.File)`. -/
inductive Writer where
  | stderrW : Writer
  | stdoutW : Writer
  | fileW (fname : String) : Writer
  deriving DecidableEq, Repr

/-- Observable effects of the dispatcher and profiler:
`factoryCall p o` is the call `s.writerFactory(p, o)`;
`profilerCall w p` is the call `p.writeProfile(w, profileName)`;
`closeCall w` is an invocation of `Close()` on the sink `w`;
`removeCall f` is the call `os.Remove(f)`;
`startCPUCall w` is `pprof.StartCPUProfile(w)`; `stopCPUCall` is
`pprof.StopCPUProfile()`; `logMsg m` is a line written via the `log`
package. -/
inductive Event where
  | factoryCall (profileName : String) (output : String) : Event
  | profilerCall (w : Writer) (profileName : String) : Event
  | closeCall (w : Writer) : Event
  | removeCall (fname : String) : Event
  | startCPUCall (w : Writer) : Event
  | stopCPUCall : Event
  | logMsg (msg : String) : Event
  deriving DecidableEq, Repr

/-- External nondeterminism of one execution.  `lookupOk p` is whether
`pprof.Lookup(p)` returns a non-nil profile; `writeToErr p w` is the error
(if any) of `prof.WriteTo(w, 1)`; `startCPUErr w` the error of
`pprof.StartCPUProfile(w)`; `fileCloseErr f` the error of closing the file
`f`; `removeErr f` the error of `os.Remove(f)`; `tempFile p` is the name of
the temporary file `ioutil.TempFile` creates for profile `p`, or `none`
when creation fails. -/
structure Env where
  lookupOk : String → Bool
  writeToErr : String → Writer → Option String
  startCPUErr : Writer → Option String
  fileCloseErr : String → Option String
  removeErr : String → Option String
  tempFile : String → Option String

/-- Result of `(w stderrWriter) Close()` in the source: always `nil`, and
the shared stream is untouched. -/
def stderrWriterClose : Option String := none

/-- Result of `(w stdoutWriter) Close()` in the source: always `nil`, and
the shared stream is untouched. -/
def stdoutWriterClose : Option String := none

/-- Error returned by invoking `Close()` on a sink: the no-op closes of the
standard-stream wrappers never fail; a file close fails as the environment
dictates. -/
def closeResult (env : Env) : Writer → Option String
  | .stdoutW => stdoutWriterClose
  | .stderrW => stderrWriterClose
  | .fileW f => env.fileCloseErr f

/-- Deferred action scheduled by a successful `cpuProfile` start: the
spawned goroutine sleeps `delay` and then stops the CPU profile and closes
`sink`. -/
structure Deferred where
  delay : Nat
  sink : Writer
  deriving DecidableEq, Repr

/-- Embedding of `var cpuProfileDuration = 30 * time.Second`, in seconds. -/
def cpuProfileDuration : Nat := 30

/-- Result of a `writeProfile` call: the returned error, the events
performed during the call, and the deferred actions it scheduled. -/
structure ProfResult where
  err : Option String
  events : List Event
  deferred : List Deferred
  deriving DecidableEq, Repr

/-- Embedding of `(p pprofiler) cpuProfile(w)`: start the CPU profile; on
failure return the wrapped error; on success schedule the stop goroutine
(delay `cpuProfileDuration`) and return `nil` immediately. -/
def cpuProfile (env : Env) (w : Writer) : ProfResult :=
  match env.startCPUErr w with
  | some e =>
      { err := some ("failed to start CPU profiling: " ++ e)
        events := [.startCPUCall w]
        deferred := [] }
  | none =>
      { err := none
        events := [.startCPUCall w]
        deferred := [⟨cpuProfileDuration, w⟩] }

/-- Embedding of the body of the goroutine spawned by `cpuProfile`: after
the sleep it logs completion, stops the CPU profile, closes the sink and
logs a close error if any. -/
def runDeferredStop (env : Env) (w : Writer) : List Event :=
  [.logMsg "cpu profile complete", .stopCPUCall, .closeCall w] ++
    match closeResult env w with
    | some _ => [.logMsg "error closing file"]
    | none => []

/-- Embedding of `(p pprofiler) writeProfile(w, profileName)`: the name
"cpu" goes to `cpuProfile`; otherwise `pprof.Lookup` either finds the
profile (then `prof.WriteTo(w, 1)` runs) or the lookup error is returned. -/
def writeProfile (env : Env) (w : Writer) (profileName : String) : ProfResult :=
  if profileName = "cpu" then
    cpuProfile env w
  else if env.lookupOk profileName then
    { err := env.writeToErr profileName w, events := [], deferred := [] }
  else
    { err := some ("failed to lookup profile \"" ++ profileName ++ "\"")
      events := [], deferred := [] }

/-- Events of the error branch of `(s *sigprof) profile`: when the sink is
an `*os.File`, close it (logging a close error), then `os.Remove` it
(logging a remove error) and return early; for any other sink control falls
through to the shared bottom of the function, `if profileName != "cpu"
\x7b w.Close() \x7d`. -/
def cleanupTail (env : Env) (profileName : String) (w : Writer) : List Event :=
  match w with
  | .fileW f =>
      .closeCall w ::
        ((match env.fileCloseErr f with
          | some _ => [.logMsg "error closing file"]
          | none => []) ++
         .removeCall f ::
          (match env.removeErr f with
           | some _ => [.logMsg "cleanup error removing file"]
           | none => []))
  | _ => if profileName ≠ "cpu" then [.closeCall w] else []

/-- Embedding of `(s *sigprof) profile(profileName, w)`: call the profiler;
on error, log it and run `cleanupTail`; on success fall through to the
final close, which runs for every non-"cpu" name and whose error is
discarded. -/
def profile (env : Env) (profileName : String) (w : Writer) :
    List Event × List Deferred :=
  let r := writeProfile env w profileName
  let tailEvents : List Event :=
    match r.err with
    | some _ =>
        .logMsg ("failed to write " ++ profileName ++ " profile") ::
          cleanupTail env profileName w
    | none =>
        if profileName ≠ "cpu" then [.closeCall w] else []
  (.profilerCall w profileName :: (r.events ++ tailEvents), r.deferred)

/-- Embedding of `newWriter(profile, output)`: "file" creates a temp file
(degrading to `stderrWriter{}` with a log line on failure, logging the
destination on success); "stdout" and "stderr" return the stream wrappers;
any other mode falls to the default case, `stderrWriter{}`. -/
def newWriter (env : Env) (profileName : String) (output : String) :
    Writer × List Event :=
  if output = "file" then
    match env.tempFile profileName with
    | none =>
        (.stderrW, [.logMsg ("failed to create file for " ++ profileName ++ " profile")])
    | some f =>
        (.fileW f, [.logMsg ("writing " ++ profileName ++ " profile to " ++ f)])
  else if output = "stdout" then (.stdoutW, [])
  else if output = "stderr" then (.stderrW, [])
  else (.stderrW, [])

/-- Received OS signals: the two recognized ones and everything else
(carrying an opaque identity). -/
inductive Signal where
  | usr1 : Signal
  | usr2 : Signal
  | other (id : Nat) : Signal
  deriving DecidableEq, Repr

/-- Configuration of the dispatcher (the `sigprof` struct): the profile
lists for SIGUSR1 and SIGUSR2 and the process-wide output mode. -/
structure SigprofCfg where
  usr1 : List String
  usr2 : List String
  output : String

/-- Processing of one entry of a profile list in `profileSignal`'s loop
body: obtain the sink via `s.writer(profile)` — i.e. the factory call
`s.writerFactory(profile, s.output)` — then run `s.profile(profile, w)`. -/
def profileOne (env : Env) (s : SigprofCfg) (p : String) :
    List Event × List Deferred :=
  let wr := newWriter env p s.output
  let pr := profile env p wr.1
  (.factoryCall p s.output :: (wr.2 ++ pr.1), pr.2)

/-- Sequential processing of a profile list, in order, with no early exit
(the Go `for` loop over `profiles`). -/
def runProfiles (env : Env) (s : SigprofCfg) : List String → List Event × List Deferred
  | [] => ([], [])
  | p :: rest =>
      ((profileOne env s p).1 ++ (runProfiles env s rest).1,
       (profileOne env s p).2 ++ (runProfiles env s rest).2)

/-- Embedding of `(s *sigprof) profileSignal(sig)`: SIGUSR1 selects
`s.usr1`, SIGUSR2 selects `s.usr2`, any other signal hits the `default`
branch and returns with no effect. -/
def profileSignal (env : Env) (s : SigprofCfg) (sig : Signal) :
    List Event × List Deferred :=
  match sig with
  | .usr1 => runProfiles env s s.usr1
  | .usr2 => runProfiles env s s.usr2
  | .other _ => ([], [])

/-- Embedding of `(s *sigprof) loop()`: the channel's contents up to its
close are the list `sigs`; each received signal is handed to
`profileSignal`, and the loop returns when the channel is closed (the list
is exhausted). -/
def loop (env : Env) (s : SigprofCfg) : List Signal → List Event × List Deferred
  | [] => ([], [])
  | g :: rest =>
      ((profileSignal env s g).1 ++ (loop env s rest).1,
       (profileSignal env s g).2 ++ (loop env s rest).2)

/-- Projection of a trace onto the writer-factory calls, keeping their
arguments in order. -/
def factoryCalls : List Event → List (String × String)
  | [] => []
  | .factoryCall p o :: rest => (p, o) :: factoryCalls rest
  | _ :: rest => factoryCalls rest

/-- Projection of a trace onto the profiler invocations, keeping sink and
name in order. -/
def profilerCalls : List Event → List (Writer × String)
  | [] => []
  | .profilerCall w p :: rest => (w, p) :: profilerCalls rest
  | _ :: rest => profilerCalls rest

/-- Number of `Close()` invocations on the sink `w` in a trace. -/
def countClose (w : Writer) : List Event → Nat
  | [] => 0
  | .closeCall w' :: rest => (if w' = w then 1 else 0) + countClose w rest
  | _ :: rest => countClose w rest

/-- Number of `os.Remove(f)` invocations in a trace. -/
def countRemove (f : String) : List Event → Nat
  | [] => 0
  | .removeCall f' :: rest => (if f' = f then 1 else 0) + countRemove f rest
  | _ :: rest => countRemove f rest

/-- Number of logged lines in a trace. -/
def countLogs : List Event → Nat
  | [] => 0
  | .logMsg _ :: rest => 1 + countLogs rest
  | _ :: rest => countLogs rest

/-! Helper lemmas: the projections and counters distribute over `++`, and
structural facts about the embedded functions. -/

theorem factoryCalls_append (l₁ l₂ : List Event) :
    factoryCalls (l₁ ++ l₂) = factoryCalls l₁ ++ factoryCalls l₂ := by
  induction l₁ with
  | nil => rfl
  | cons e rest ih => cases e <;> simp [factoryCalls, ih]

theorem profilerCalls_append (l₁ l₂ : List Event) :
    profilerCalls (l₁ ++ l₂) = profilerCalls l₁ ++ profilerCalls l₂ := by
  induction l₁ with
  | nil => rfl
  | cons e rest ih => cases e <;> simp [profilerCalls, ih]

theorem countClose_append (w : Writer) (l₁ l₂ : List Event) :
    countClose w (l₁ ++ l₂) = countClose w l₁ + countClose w l₂ := by
  induction l₁ with
  | nil => simp [countClose]
  | cons e rest ih => cases e <;> (simp [countClose, ih]; try omega)

theorem countRemove_append (f : String) (l₁ l₂ : List Event) :
    countRemove f (l₁ ++ l₂) = countRemove f l₁ + countRemove f l₂ := by
  induction l₁ with
  | nil => simp [countRemove]
  | cons e rest ih => cases e <;> (simp [countRemove, ih]; try omega)

theorem countLogs_append (l₁ l₂ : List Event) :
    countLogs (l₁ ++ l₂) = countLogs l₁ + countLogs l₂ := by
  induction l₁ with
  | nil => simp [countLogs]
  | cons e rest ih => cases e <;> (simp [countLogs, ih]; try omega)

theorem writeProfile_events_cases (env : Env) (w : Writer) (p : String) :
    (writeProfile env w p).events = [] ∨
      (writeProfile env w p).events = [.startCPUCall w] := by
  unfold writeProfile cpuProfile
  by_cases h : p = "cpu" <;> simp [h]
  · cases env.startCPUErr w <;> simp
  · cases env.lookupOk p <;> simp

theorem writeProfile_deferred_of_err (env : Env) (w : Writer) (p : String) :
    (writeProfile env w p).err ≠ none → (writeProfile env w p).deferred = [] := by
  unfold writeProfile cpuProfile
  by_cases hp : p = "cpu" <;> simp [hp]
  · cases env.startCPUErr w <;> simp
  · cases env.lookupOk p <;> simp

theorem profile_of_err (env : Env) (p : String) (w : Writer) (e : String)
    (h : (writeProfile env w p).err = some e) :
    profile env p w =
      (.profilerCall w p ::
        ((writeProfile env w p).events ++
          (.logMsg ("failed to write " ++ p ++ " profile") :: cleanupTail env p w)),
       (writeProfile env w p).deferred) := by
  simp only [profile, h]

theorem profile_of_ok (env : Env) (p : String) (w : Writer)
    (h : (writeProfile env w p).err = none) :
    profile env p w =
      (.profilerCall w p ::
        ((writeProfile env w p).events ++
          (if p ≠ "cpu" then [.closeCall w] else [])),
       (writeProfile env w p).deferred) := by
  simp only [profile, h]

theorem counts_cleanupTail_file (env : Env) (p : String) (f : String) :
    countClose (.fileW f) (cleanupTail env p (.fileW f)) = 1 ∧
      countRemove f (cleanupTail env p (.fileW f)) = 1 := by
  simp only [cleanupTail]
  cases env.fileCloseErr f <;> cases env.removeErr f <;>
    simp [countClose, countRemove, countClose_append, countRemove_append]

theorem factoryCalls_cleanupTail (env : Env) (p : String) (w : Writer) :
    factoryCalls (cleanupTail env p w) = [] := by
  cases w <;> simp [cleanupTail]
  · split <;> simp [factoryCalls]
  · split <;> simp [factoryCalls]
  · cases env.fileCloseErr _ <;> cases env.removeErr _ <;>
      simp [factoryCalls, factoryCalls_append]

theorem profilerCalls_cleanupTail (env : Env) (p : String) (w : Writer) :
    profilerCalls (cleanupTail env p w) = [] := by
  cases w <;> simp [cleanupTail]
  · split <;> simp [profilerCalls]
  · split <;> simp [profilerCalls]
  · cases env.fileCloseErr _ <;> cases env.removeErr _ <;>
      simp [profilerCalls, profilerCalls_append]

theorem factoryCalls_profile (env : Env) (p : String) (w : Writer) :
    factoryCalls (profile env p w).1 = [] := by
  cases h : (writeProfile env w p).err with
  | none =>
      rw [profile_of_ok env p w h]
      rcases writeProfile_events_cases env w p with he | he <;>
        rw [he] <;> split <;> simp [factoryCalls]
  | some e =>
      rw [profile_of_err env p w e h]
      rcases writeProfile_events_cases env w p with he | he <;>
        rw [he] <;>
        simp [factoryCalls, factoryCalls_append, factoryCalls_cleanupTail]

theorem profilerCalls_profile (env : Env) (p : String) (w : Writer) :
    profilerCalls (profile env p w).1 = [(w, p)] := by
  cases h : (writeProfile env w p).err with
  | none =>
      rw [profile_of_ok env p w h]
      rcases writeProfile_events_cases env w p with he | he <;>
        rw [he] <;> split <;> simp [profilerCalls]
  | some e =>
      rw [profile_of_err env p w e h]
      rcases writeProfile_events_cases env w p with he | he <;>
        rw [he] <;>
        simp [profilerCalls, profilerCalls_append, profilerCalls_cleanupTail]

theorem factoryCalls_newWriter (env : Env) (p o : String) :
    factoryCalls (newWriter env p o).2 = [] := by
  unfold newWriter
  split
  · cases env.tempFile p <;> simp [factoryCalls]
  · split <;> [simp [factoryCalls]; split <;> simp [factoryCalls]]

theorem profilerCalls_newWriter (env : Env) (p o : String) :
    profilerCalls (newWriter env p o).2 = [] := by
  unfold newWriter
  split
  · cases env.tempFile p <;> simp [profilerCalls]
  · split <;> [simp [profilerCalls]; split <;> simp [profilerCalls]]

theorem factoryCalls_cons_factory (p o : String) (rest : List Event) :
    factoryCalls (.factoryCall p o :: rest) = (p, o) :: factoryCalls rest := rfl

theorem profilerCalls_cons_factory (p o : String) (rest : List Event) :
    profilerCalls (.factoryCall p o :: rest) = profilerCalls rest := rfl

theorem factoryCalls_profileOne (env : Env) (s : SigprofCfg) (p : String) :
    factoryCalls (profileOne env s p).1 = [(p, s.output)] := by
  show factoryCalls (.factoryCall p s.output ::
    ((newWriter env p s.output).2 ++ (profile env p (newWriter env p s.output).1).1)) =
    [(p, s.output)]
  rw [factoryCalls_cons_factory, factoryCalls_append, factoryCalls_newWriter,
    factoryCalls_profile]
  simp

theorem profilerCalls_profileOne (env : Env) (s : SigprofCfg) (p : String) :
    profilerCalls (profileOne env s p).1 = [((newWriter env p s.output).1, p)] := by
  show profilerCalls (.factoryCall p s.output ::
    ((newWriter env p s.output).2 ++ (profile env p (newWriter env p s.output).1).1)) =
    [((newWriter env p s.output).1, p)]
  rw [profilerCalls_cons_factory, profilerCalls_append, profilerCalls_newWriter,
    profilerCalls_profile]
  simp

theorem factoryCalls_runProfiles (env : Env) (s : SigprofCfg) (l : List String) :
    factoryCalls (runProfiles env s l).1 = l.map fun p => (p, s.output) := by
  induction l with
  | nil => simp [runProfiles, factoryCalls]
  | cons p rest ih =>
      simp [runProfiles, factoryCalls_append, factoryCalls_profileOne, ih]

theorem profilerCalls_runProfiles (env : Env) (s : SigprofCfg) (l : List String) :
    (profilerCalls (runProfiles env s l).1).map Prod.snd = l := by
  induction l with
  | nil => simp [runProfiles, profilerCalls]
  | cons p rest ih =>
      simp [runProfiles, profilerCalls_append, profilerCalls_profileOne, ih]

/-! Concrete environments used to instantiate the universally quantified
theorems below on executable inputs. -/

/-- Environment where every external operation succeeds and temporary files
are created. -/
def envOk : Env where
  lookupOk := fun _ => true
  writeToErr := fun _ _ => none
  startCPUErr := fun _ => none
  fileCloseErr := fun _ => none
  removeErr := fun _ => none
  tempFile := fun p => some ("/tmp/app." ++ p ++ ".prof.1")

/-- Environment where profile lookup fails, CPU profiling cannot start, and
temporary-file creation fails. -/
def envFail : Env where
  lookupOk := fun _ => false
  writeToErr := fun _ _ => none
  startCPUErr := fun _ => some "cpu profiling already in use"
  fileCloseErr := fun _ => none
  removeErr := fun _ => none
  tempFile := fun _ => none

/-- Environment where captures succeed but closing any file fails. -/
def envCloseFail : Env where
  lookupOk := fun _ => true
  writeToErr := fun _ _ => none
  startCPUErr := fun _ => none
  fileCloseErr := fun _ => some "close failed"
  removeErr := fun _ => none
  tempFile := fun _ => none

/-- C7: for every profile name, `newWriter` with mode "stdout" returns the
standard-output wrapper and with mode "stderr" the standard-error wrapper,
each with a close that is a no-op returning nil (the shared stream is never
closed); any mode other than "stdout", "stderr" or "file" — the empty
string included — produces exactly what "stderr" produces. -/
theorem newWriter_stream_modes (env : Env) (p : String) :
    newWriter env p "stdout" = (.stdoutW, []) ∧
    newWriter env p "stderr" = (.stderrW, []) ∧
    closeResult env .stdoutW = none ∧
    closeResult env .stderrW = none ∧
    ∀ m : String, m ≠ "stdout" → m ≠ "stderr" → m ≠ "file" →
      newWriter env p m = newWriter env p "stderr" := by
  refine ⟨by simp [newWriter], by simp [newWriter], rfl, rfl, fun m h₁ h₂ h₃ => ?_⟩
  simp [newWriter, h₁, h₂, h₃]

/-- Witness for C7 at a concrete unrecognized mode and the empty string. -/
theorem newWriter_stream_modes_witness :
    newWriter envOk "goroutine" "orange" = newWriter envOk "goroutine" "stderr" ∧
    newWriter envOk "goroutine" "" = newWriter envOk "goroutine" "stderr" :=
  ⟨(newWriter_stream_modes envOk "goroutine").2.2.2.2 "orange"
      (by decide) (by decide) (by decide),
   (newWriter_stream_modes envOk "goroutine").2.2.2.2 ""
      (by decide) (by decide) (by decide)⟩

/-- C8: a received signal that is neither SIGUSR1 nor SIGUSR2 hits the
`default` branch of `profileSignal`: no capture attempt, no sink creation,
no event at all, and nothing scheduled; the loop then waits for the next
signal. -/
theorem other_signal_ignored (env : Env) (s : SigprofCfg) (id : Nat) :
    profileSignal env s (.other id) = ([], []) := rfl

/-- C6: in file output mode, when temporary-file creation fails, `newWriter`
returns the stderr sink and logs the failure, and the capture still
proceeds: the per-entry processing invokes the profiler exactly once, with
the degraded stderr sink. -/
theorem sink_creation_failure_degrades (env : Env) (s : SigprofCfg) (p : String)
    (hout : s.output = "file") (hfail : env.tempFile p = none) :
    newWriter env p "file" =
      (.stderrW, [.logMsg ("failed to create file for " ++ p ++ " profile")]) ∧
    profilerCalls (profileOne env s p).1 = [(.stderrW, p)] := by
  have hnw : newWriter env p "file" =
      (.stderrW, [.logMsg ("failed to create file for " ++ p ++ " profile")]) := by
    simp [newWriter, hfail]
  refine ⟨hnw, ?_⟩
  rw [profilerCalls_profileOne, hout, hnw]

/-- Witness for C6 on a concrete failing environment and configuration. -/
theorem sink_creation_failure_degrades_witness :
    profilerCalls (profileOne envFail ⟨["goroutine"], ["heap"], "file"⟩ "goroutine").1 =
      [(.stderrW, "goroutine")] :=
  (sink_creation_failure_degrades envFail ⟨["goroutine"], ["heap"], "file"⟩
    "goroutine" rfl rfl).2

/-- C5: for any profile name other than "cpu" that the runtime does not
recognize, `writeProfile` fails with the lookup error naming that profile,
and when the sink is a file the dispatcher closes it once and removes it
once, leaving no artifact. -/
theorem unknown_profile_fails (env : Env) (p : String) (f : String)
    (hp : p ≠ "cpu") (hl : env.lookupOk p = false) :
    (∀ w : Writer, (writeProfile env w p).err =
        some ("failed to lookup profile \"" ++ p ++ "\"")) ∧
    countClose (.fileW f) (profile env p (.fileW f)).1 = 1 ∧
    countRemove f (profile env p (.fileW f)).1 = 1 := by
  have herr : ∀ w : Writer, (writeProfile env w p).err =
      some ("failed to lookup profile \"" ++ p ++ "\"") := by
    intro w; simp [writeProfile, hp, hl]
  have hev : (writeProfile env (.fileW f) p).events = [] := by
    simp [writeProfile, hp, hl]
  refine ⟨herr, ?_, ?_⟩
  · rw [profile_of_err env p (.fileW f) _ (herr _), hev]
    show countClose (.fileW f)
      ([.profilerCall (.fileW f) p, .logMsg ("failed to write " ++ p ++ " profile")] ++
        cleanupTail env p (.fileW f)) = 1
    rw [countClose_append, (counts_cleanupTail_file env p f).1]
    rfl
  · rw [profile_of_err env p (.fileW f) _ (herr _), hev]
    show countRemove f
      ([.profilerCall (.fileW f) p, .logMsg ("failed to write " ++ p ++ " profile")] ++
        cleanupTail env p (.fileW f)) = 1
    rw [countRemove_append, (counts_cleanupTail_file env p f).2]
    rfl

/-- Witness for C5 on a concrete unknown profile name and file sink. -/
theorem unknown_profile_fails_witness :
    (writeProfile envFail (.fileW "x") "bogus").err =
      some ("failed to lookup profile \"bogus\"") ∧
    countRemove "x" (profile envFail "bogus" (.fileW "x")).1 = 1 :=
  ⟨(unknown_profile_fails envFail "bogus" "x" (by decide) rfl).1 (.fileW "x"),
   (unknown_profile_fails envFail "bogus" "x" (by decide) rfl).2.2⟩

/-! Small step lemmas for the counters, and the two unfoldings of
`profile` split into their components. -/

theorem countClose_cons_profiler (w' w : Writer) (p : String) (rest : List Event) :
    countClose w' (.profilerCall w p :: rest) = countClose w' rest := rfl

theorem countClose_cons_log (w' : Writer) (m : String) (rest : List Event) :
    countClose w' (.logMsg m :: rest) = countClose w' rest := rfl

theorem countClose_cons_start (w' w : Writer) (rest : List Event) :
    countClose w' (.startCPUCall w :: rest) = countClose w' rest := rfl

theorem countClose_cons_close (w' w : Writer) (rest : List Event) :
    countClose w' (.closeCall w :: rest) =
      (if w = w' then 1 else 0) + countClose w' rest := rfl

theorem countLogs_cons_log (m : String) (rest : List Event) :
    countLogs (.logMsg m :: rest) = 1 + countLogs rest := rfl

theorem countRemove_cons_profiler (f : String) (w : Writer) (p : String)
    (rest : List Event) :
    countRemove f (.profilerCall w p :: rest) = countRemove f rest := rfl

theorem countRemove_cons_log (f m : String) (rest : List Event) :
    countRemove f (.logMsg m :: rest) = countRemove f rest := rfl

theorem profile_events_of_err (env : Env) (p : String) (w : Writer) (e : String)
    (h : (writeProfile env w p).err = some e) :
    (profile env p w).1 =
      .profilerCall w p ::
        ((writeProfile env w p).events ++
          (.logMsg ("failed to write " ++ p ++ " profile") :: cleanupTail env p w)) := by
  rw [profile_of_err env p w e h]

theorem profile_deferred_of_err (env : Env) (p : String) (w : Writer) (e : String)
    (h : (writeProfile env w p).err = some e) :
    (profile env p w).2 = (writeProfile env w p).deferred := by
  rw [profile_of_err env p w e h]

theorem profile_events_of_ok (env : Env) (p : String) (w : Writer)
    (h : (writeProfile env w p).err = none) :
    (profile env p w).1 =
      .profilerCall w p ::
        ((writeProfile env w p).events ++
          (if p ≠ "cpu" then [.closeCall w] else [])) := by
  rw [profile_of_ok env p w h]

theorem profile_deferred_of_ok (env : Env) (p : String) (w : Writer)
    (h : (writeProfile env w p).err = none) :
    (profile env p w).2 = (writeProfile env w p).deferred := by
  rw [profile_of_ok env p w h]

theorem countClose_writeProfile_events (env : Env) (w : Writer) (p : String)
    (w' : Writer) : countClose w' (writeProfile env w p).events = 0 := by
  rcases writeProfile_events_cases env w p with h | h <;> rw [h] <;> rfl

theorem countRemove_writeProfile_events (env : Env) (w : Writer) (p : String)
    (f : String) : countRemove f (writeProfile env w p).events = 0 := by
  rcases writeProfile_events_cases env w p with h | h <;> rw [h] <;> rfl

theorem countLogs_writeProfile_events (env : Env) (w : Writer) (p : String) :
    countLogs (writeProfile env w p).events = 0 := by
  rcases writeProfile_events_cases env w p with h | h <;> rw [h] <;> rfl

/-- C1: for each SIGUSR1 (resp. SIGUSR2) signal, the dispatcher makes
exactly one capture attempt per entry of that signal's configured list, in
list order: the writer-factory calls of the trace are exactly the list
entries paired with the configured output mode, and the profiler
invocations carry exactly the list's names in order; per entry the sink is
obtained first and the profiler is then invoked with that sink and name.
This holds for every environment — no capture failure reduces the attempts
for remaining entries — and for every later signal in the loop. -/
theorem signal_dispatch_captures (env : Env) (s : SigprofCfg) :
    factoryCalls (profileSignal env s .usr1).1 =
      (s.usr1.map fun p => (p, s.output)) ∧
    (profilerCalls (profileSignal env s .usr1).1).map Prod.snd = s.usr1 ∧
    factoryCalls (profileSignal env s .usr2).1 =
      (s.usr2.map fun p => (p, s.output)) ∧
    (profilerCalls (profileSignal env s .usr2).1).map Prod.snd = s.usr2 ∧
    (∀ p : String, ∃ rest,
      (profileOne env s p).1 =
        .factoryCall p s.output ::
          ((newWriter env p s.output).2 ++
            .profilerCall (newWriter env p s.output).1 p :: rest)) ∧
    (∀ sigs : List Signal,
      factoryCalls (loop env s sigs).1 =
        (sigs.map fun g => factoryCalls (profileSignal env s g).1).flatten) := by
  refine ⟨factoryCalls_runProfiles env s s.usr1,
    profilerCalls_runProfiles env s s.usr1,
    factoryCalls_runProfiles env s s.usr2,
    profilerCalls_runProfiles env s s.usr2, fun p => ⟨_, rfl⟩, fun sigs => ?_⟩
  induction sigs with
  | nil => rfl
  | cons g rest ih =>
      show factoryCalls ((profileSignal env s g).1 ++ (loop env s rest).1) = _
      rw [factoryCalls_append, ih, List.map_cons, List.flatten_cons]

/-- C9: the dispatcher loop returns exactly when the signal channel is
closed (the delivered-signal list is exhausted), and its full effect is the
concatenation of the processing of every delivered signal, whatever
failures or unrecognized signals occur in between. -/
theorem loop_processes_all (env : Env) (s : SigprofCfg) (sigs : List Signal) :
    loop env s sigs =
      ((sigs.map fun g => (profileSignal env s g).1).flatten,
       (sigs.map fun g => (profileSignal env s g).2).flatten) := by
  induction sigs with
  | nil => rfl
  | cons g rest ih =>
      show ((profileSignal env s g).1 ++ (loop env s rest).1,
            (profileSignal env s g).2 ++ (loop env s rest).2) = _
      rw [ih, List.map_cons, List.flatten_cons, List.map_cons, List.flatten_cons]

/-- C2: whenever the engine call for a file sink returns an error — a
point-in-time write failure or a failed start of the continuous cpu
capture — the dispatcher closes the handle exactly once, schedules no
deferred close, and removes the file after the close, so no partial
artifact remains. -/
theorem file_sink_failure_cleanup (env : Env) (p f : String)
    (herr : (writeProfile env (.fileW f) p).err ≠ none) :
    countClose (.fileW f) (profile env p (.fileW f)).1 = 1 ∧
    (profile env p (.fileW f)).2 = [] ∧
    countRemove f (profile env p (.fileW f)).1 = 1 ∧
    ∃ l₁ l₂ l₃,
      (profile env p (.fileW f)).1 =
        l₁ ++ .closeCall (.fileW f) :: (l₂ ++ .removeCall f :: l₃) := by
  obtain ⟨e, he⟩ := Option.ne_none_iff_exists'.mp herr
  have h₁ := profile_events_of_err env p (.fileW f) e he
  have h₂ := profile_deferred_of_err env p (.fileW f) e he
  have h₃ := writeProfile_deferred_of_err env (.fileW f) p herr
  refine ⟨?_, h₂.trans h₃, ?_, ?_⟩
  · rw [h₁, countClose_cons_profiler, countClose_append,
      countClose_writeProfile_events, countClose_cons_log,
      (counts_cleanupTail_file env p f).1]
  · rw [h₁, countRemove_cons_profiler, countRemove_append,
      countRemove_writeProfile_events, countRemove_cons_log,
      (counts_cleanupTail_file env p f).2]
  · refine ⟨.profilerCall (.fileW f) p ::
        ((writeProfile env (.fileW f) p).events ++
          [.logMsg ("failed to write " ++ p ++ " profile")]),
      (match env.fileCloseErr f with
       | some _ => [.logMsg "error closing file"]
       | none => []),
      (match env.removeErr f with
       | some _ => [.logMsg "cleanup error removing file"]
       | none => []), ?_⟩
    rw [h₁]
    show _ = .profilerCall (.fileW f) p ::
      (((writeProfile env (.fileW f) p).events ++
        [.logMsg ("failed to write " ++ p ++ " profile")]) ++
        (.closeCall (.fileW f) :: _))
    rw [List.append_assoc]
    rfl

/-- Witness for C2 at a concrete failed capture: unknown profile name with
a file sink. -/
theorem file_sink_failure_cleanup_witness :
    countClose (.fileW "x") (profile envFail "bogus" (.fileW "x")).1 = 1 ∧
    countRemove "x" (profile envFail "bogus" (.fileW "x")).1 = 1 :=
  ⟨(file_sink_failure_cleanup envFail "bogus" "x" (by decide)).1,
   (file_sink_failure_cleanup envFail "bogus" "x" (by decide)).2.2.1⟩

/-- C3: a successful "cpu" capture returns success right after starting
collection; the dispatcher's own trace contains no close of the sink, and
the only close happens inside the deferred stop action, scheduled with the
configured duration, exactly once. -/
theorem cpu_success_deferred_close (env : Env) (w : Writer)
    (h : env.startCPUErr w = none) :
    (writeProfile env w "cpu").err = none ∧
    profile env "cpu" w =
      ([.profilerCall w "cpu", .startCPUCall w], [⟨cpuProfileDuration, w⟩]) ∧
    countClose w (profile env "cpu" w).1 = 0 ∧
    countClose w (runDeferredStop env w) = 1 := by
  have hw : writeProfile env w "cpu" =
      { err := none, events := [.startCPUCall w]
        deferred := [⟨cpuProfileDuration, w⟩] } := by
    simp [writeProfile, cpuProfile, h]
  have hok : (writeProfile env w "cpu").err = none := by rw [hw]
  have hp : profile env "cpu" w =
      ([.profilerCall w "cpu", .startCPUCall w], [⟨cpuProfileDuration, w⟩]) := by
    have h₁ := profile_events_of_ok env "cpu" w hok
    have h₂ := profile_deferred_of_ok env "cpu" w hok
    rw [hw] at h₁ h₂
    simp only [ne_eq, not_true_eq_false, if_neg, ite_false, List.append_nil] at h₁
    exact Prod.ext (h₁.trans rfl) h₂
  refine ⟨hok, hp, ?_, ?_⟩
  · rw [hp]; rfl
  · unfold runDeferredStop
    rw [countClose_append]
    cases closeResult env w <;> simp [countClose]

/-- Witness for C3 at a concrete file sink in the all-success
environment. -/
theorem cpu_success_deferred_close_witness :
    profile envOk "cpu" (.fileW "/tmp/c") =
      ([.profilerCall (.fileW "/tmp/c") "cpu", .startCPUCall (.fileW "/tmp/c")],
       [⟨cpuProfileDuration, .fileW "/tmp/c"⟩]) :=
  (cpu_success_deferred_close envOk (.fileW "/tmp/c") rfl).2.1

/-- C10: when the engine call fails and the sink is not a file handle, a
non-"cpu" capture still closes the sink exactly once (the shared bottom
close, as on success), while a failed "cpu" start never closes that sink —
neither directly nor through a deferred action. -/
theorem nonfile_sink_failure_close (env : Env) (p : String) (w : Writer)
    (hw : w = .stderrW ∨ w = .stdoutW)
    (herr : (writeProfile env w p).err ≠ none) :
    (p ≠ "cpu" →
      countClose w (profile env p w).1 = 1 ∧ (profile env p w).2 = []) ∧
    (p = "cpu" →
      countClose w (profile env p w).1 = 0 ∧ (profile env p w).2 = []) := by
  obtain ⟨e, he⟩ := Option.ne_none_iff_exists'.mp herr
  have h₁ := profile_events_of_err env p w e he
  have h₂ := (profile_deferred_of_err env p w e he).trans
    (writeProfile_deferred_of_err env w p herr)
  constructor
  · intro hp
    have hct : cleanupTail env p w = [.closeCall w] := by
      rcases hw with rfl | rfl <;> simp [cleanupTail, hp]
    refine ⟨?_, h₂⟩
    rw [h₁, hct, countClose_cons_profiler, countClose_append,
      countClose_writeProfile_events, countClose_cons_log,
      countClose_cons_close]
    simp [countClose]
  · intro hp
    subst hp
    have hct : cleanupTail env "cpu" w = [] := by
      rcases hw with rfl | rfl <;> simp [cleanupTail]
    refine ⟨?_, h₂⟩
    rw [h₁, hct, countClose_cons_profiler, countClose_append,
      countClose_writeProfile_events, countClose_cons_log]
    rfl

/-- Witness for C10: a failed lookup with the stderr sink, and a failed
cpu start with the stderr sink. -/
theorem nonfile_sink_failure_close_witness :
    countClose .stderrW (profile envFail "heap" .stderrW).1 = 1 ∧
    countClose .stderrW (profile envFail "cpu" .stderrW).1 = 0 :=
  ⟨((nonfile_sink_failure_close envFail "heap" .stderrW (Or.inl rfl)
      (by decide)).1 (by decide)).1,
   ((nonfile_sink_failure_close envFail "cpu" .stderrW (Or.inl rfl)
      (by decide)).2 rfl).1⟩

/-- C4 counterexample: in `envCloseFail` the point-in-time capture of
"heap" into the file sink "x" succeeds and the close of the completed sink
fails, yet the dispatcher's trace contains no log line at all — the error
of the shared bottom `w.Close()` is discarded, contradicting the claim that
every failing close of a completed sink is logged. -/
theorem close_error_after_success_unlogged :
    closeResult envCloseFail (.fileW "x") = some "close failed" ∧
    (writeProfile envCloseFail (.fileW "x") "heap").err = none ∧
    (profile envCloseFail "heap" (.fileW "x")).1 =
      [.profilerCall (.fileW "x") "heap", .closeCall (.fileW "x")] ∧
    countLogs (profile envCloseFail "heap" (.fileW "x")).1 = 0 := by
  refine ⟨rfl, ?_, ?_, ?_⟩ <;> rfl

/-- C4 (amended): a failing close of a completed sink is never retried and
the sink is never reopened or rewritten; after the deferred stop of a
continuous cpu capture the close error is logged, but after a successful
point-in-time capture the return value of the bottom `w.Close()` is
discarded, so the error is not logged. -/
theorem close_failure_amended (env : Env) (p : String) (w : Writer)
    (hp : p ≠ "cpu") (hok : (writeProfile env w p).err = none)
    (hc : closeResult env w ≠ none) :
    (profile env p w).1 = [.profilerCall w p, .closeCall w] ∧
    countClose w (profile env p w).1 = 1 ∧
    countLogs (profile env p w).1 = 0 ∧
    runDeferredStop env w =
      [.logMsg "cpu profile complete", .stopCPUCall, .closeCall w,
       .logMsg "error closing file"] ∧
    countClose w (runDeferredStop env w) = 1 := by
  have hev : (writeProfile env w p).events = [] := by
    unfold writeProfile
    simp only [hp, if_neg, ite_false]
    split <;> rfl
  have h₁ := profile_events_of_ok env p w hok
  rw [hev] at h₁
  simp only [ne_eq, hp, not_false_eq_true, if_true, ite_true,
    List.nil_append] at h₁
  obtain ⟨ce, hce⟩ := Option.ne_none_iff_exists'.mp hc
  have hd : runDeferredStop env w =
      [.logMsg "cpu profile complete", .stopCPUCall, .closeCall w,
       .logMsg "error closing file"] := by
    unfold runDeferredStop
    rw [hce]
    rfl
  refine ⟨h₁, ?_, ?_, hd, ?_⟩
  · rw [h₁, countClose_cons_profiler, countClose_cons_close]
    simp [countClose]
  · rw [h₁]; rfl
  · rw [hd]
    simp [countClose]

/-- Witness for the amended C4 on the concrete close-failure
environment. -/
theorem close_failure_amended_witness :
    (profile envCloseFail "goroutine" (.fileW "y")).1 =
      [.profilerCall (.fileW "y") "goroutine", .closeCall (.fileW "y")] ∧
    runDeferredStop envCloseFail (.fileW "y") =
      [.logMsg "cpu profile complete", .stopCPUCall, .closeCall (.fileW "y"),
       .logMsg "error closing file"] :=
  ⟨(close_failure_amended envCloseFail "goroutine" (.fileW "y")
      (by decide) rfl (by decide)).1,
   (close_failure_amended envCloseFail "goroutine" (.fileW "y")
      (by decide) rfl (by decide)).2.2.2.1⟩

end Sigprof
